import Mathlib

/-!
# Verification of the graphql-api weather/activity service

Shallow embedding of the repository's business logic:

* `src/src/services/activityRecommendationService.ts` — the four activity
  scorers (`calculateSkiingScore`, `calculateSurfingScore`,
  `calculateIndoorSightseeingScore`, `calculateOutdoorSightseeingScore`).
* `src/src/services/openmeteoService.ts` — `searchCities`,
  `getWeatherForecast`, `getRecommendedActivities` (HTTP calls are modelled
  as explicit `Except`-valued parameters; success/error wrapping is embedded
  faithfully).
* `src/src/resolvers/index.ts` — query resolvers and `validateCoordinates`.

JavaScript numbers are modelled as rationals (`ℚ`); all claims are about
finite inputs, so NaN/Infinity paths (`isNaN` checks) are vacuous.
`Math.round` rounds half toward positive infinity, i.e. `⌊x + 1/2⌋`.
Weather codes are integers (`ℤ`).
-/

namespace GraphqlApi

/-- `WeatherData` / `WeatherDTO` from `openmeteoService.ts`: a single
normalized weather sample. -/
structure WeatherData where
  temperature : ℚ
  weatherCode : ℤ
  windSpeed : ℚ
  precipitation : ℚ
  time : String
deriving DecidableEq, Repr

/-- `ActivityScoreDTO`: output of one scorer (activity name, integer score,
verdict description). The `score` field of the embedding is an integer by
type, mirroring the fact that the code always returns `Math.round`ed (or
literal integer) scores. -/
structure ActivityScoreDTO where
  activity : String
  score : ℤ
  description : String
deriving DecidableEq, Repr

/-- JavaScript `Math.round` on a finite number: round half toward +∞. -/
def jsRound (q : ℚ) : ℤ := ⌊q + 1/2⌋

/-- `Math.min(100, Math.max(0, n))` on an already-rounded integer score,
exactly as every scorer post-processes its raw score. -/
def clampScore (n : ℤ) : ℤ := min 100 (max 0 n)

/-- Snow condition of `calculateSkiingScore`:
`(weatherCode >= 71 && weatherCode <= 77) || weatherCode === 85 || weatherCode === 86`. -/
def isSnowingCond (c : ℤ) : Prop := (71 ≤ c ∧ c ≤ 77) ∨ c = 85 ∨ c = 86

instance (c : ℤ) : Decidable (isSnowingCond c) := by
  unfold isSnowingCond; infer_instance

/-- Bad-weather condition of `calculateIndoorSightseeingScore`:
`precipitation > 2 || temperature < 0 || temperature > 30 || (weatherCode >= 51 && weatherCode <= 86)`. -/
def isBadWeatherCond (w : WeatherData) : Prop :=
  w.precipitation > 2 ∨ w.temperature < 0 ∨ w.temperature > 30 ∨
    (51 ≤ w.weatherCode ∧ w.weatherCode ≤ 86)

instance (w : WeatherData) : Decidable (isBadWeatherCond w) := by
  unfold isBadWeatherCond; infer_instance

/-- Good-weather condition of `calculateOutdoorSightseeingScore`:
`(weatherCode === 0 || 1 || 2) && precipitation < 2 && 15 <= temperature <= 28`. -/
def isGoodWeatherCond (w : WeatherData) : Prop :=
  (w.weatherCode = 0 ∨ w.weatherCode = 1 ∨ w.weatherCode = 2) ∧
    w.precipitation < 2 ∧ 15 ≤ w.temperature ∧ w.temperature ≤ 28

instance (w : WeatherData) : Decidable (isGoodWeatherCond w) := by
  unfold isGoodWeatherCond; infer_instance

/-- `calculateSkiingScore` (activityRecommendationService.ts, lines 25–51).
`tempScore = max(0, 1 - |−5 − t|/20)`, wind penalty factor `min(1, w/30)`,
base `70 + tempScore*30` when snowing else `tempScore*50`, halved-wind
reduction, then `min(100, max(0, round(score)))`. -/
def calculateSkiingScore (w : WeatherData) : ActivityScoreDTO :=
  let tempScore : ℚ := max 0 (1 - |(-5 : ℚ) - w.temperature| / 20)
  let windPenalty : ℚ := min 1 (w.windSpeed / 30)
  let base : ℚ := if isSnowingCond w.weatherCode then 70 + tempScore * 30 else tempScore * 50
  let score : ℚ := base * (1 - windPenalty * (1/2))
  { activity := "Skiing"
    score := clampScore (jsRound score)
    description :=
      if isSnowingCond w.weatherCode then "Perfect conditions for skiing with fresh snow!"
      else "Skiing conditions are not ideal right now." }

/-- `calculateSurfingScore` (activityRecommendationService.ts, lines 62–80).
`windScore = min(1, w/15)*60`; `tempScore = t > 10 ? 40 : (t/10)*40`;
`windThresholdPenalty = w < 5 ? 30 : 0`; `rainPenalty = p > 5 ? 20 : 0`. -/
def calculateSurfingScore (w : WeatherData) : ActivityScoreDTO :=
  let windScore : ℚ := min 1 (w.windSpeed / 15) * 60
  let tempScore : ℚ := if w.temperature > 10 then 40 else w.temperature / 10 * 40
  let windThresholdPenalty : ℚ := if w.windSpeed < 5 then 30 else 0
  let rainPenalty : ℚ := if w.precipitation > 5 then 20 else 0
  let score : ℚ := windScore + tempScore - rainPenalty - windThresholdPenalty
  { activity := "Surfing"
    score := clampScore (jsRound score)
    description :=
      if w.windSpeed > 8 then "Good waves for surfing!"
      else "Waves might be too calm for surfing." }

/-- `calculateIndoorSightseeingScore` (activityRecommendationService.ts,
lines 87–104). Literal `80` when bad weather, else `30`; no rounding. -/
def calculateIndoorSightseeingScore (w : WeatherData) : ActivityScoreDTO :=
  { activity := "Indoor Sightseeing"
    score := if isBadWeatherCond w then 80 else 30
    description :=
      if isBadWeatherCond w then "Great day to explore indoor attractions!"
      else "Consider outdoor activities instead." }

/-- `calculateOutdoorSightseeingScore` (activityRecommendationService.ts,
lines 112–136). `windPenalty = min(30, w*2)`;
`tempScore = max(0, 1 - (|21.5 − t|/10)*100)`; `baseScore = good ? 85 : 30`;
`finalTempScore = tempScore > 0 ? tempScore*0.8 : 0`;
`score = max(0, baseScore + finalTempScore − windPenalty)`. -/
def calculateOutdoorSightseeingScore (w : WeatherData) : ActivityScoreDTO :=
  let windPenalty : ℚ := min 30 (w.windSpeed * 2)
  let tempScore : ℚ := max 0 (1 - |(43 : ℚ)/2 - w.temperature| / 10 * 100)
  let baseScore : ℚ := if isGoodWeatherCond w then 85 else 30
  let finalTempScore : ℚ := if tempScore > 0 then tempScore * (4/5) else 0
  let score : ℚ := max 0 (baseScore + finalTempScore - windPenalty)
  { activity := "Outdoor Sightseeing"
    score := clampScore (jsRound score)
    description :=
      if isGoodWeatherCond w then "Perfect weather for exploring outdoors!"
      else "Weather conditions might not be ideal for outdoor sightseeing." }

/-! ## Spec-side score formulas

The following definitions transcribe the score formulas exactly as the
claims state them (`round(clamp(raw, 0, 100))` around a closed-form raw
score). They are compared against the source-translated scorers above. -/

/-- Skiing score as claim C4 words it: `round(clamp(raw, 0, 100))` with
`raw = (isSnowing ? 70 + tempScore*30 : tempScore*50) * (1 − min(1, windSpeed/30)*0.5)`
and `tempScore = max(0, 1 − |−5 − temperature|/20)`. -/
def skiingScoreClaim (w : WeatherData) : ℤ :=
  jsRound (min 100 (max 0 (
    (if isSnowingCond w.weatherCode
        then 70 + max 0 (1 - |(-5 : ℚ) - w.temperature| / 20) * 30
        else max 0 (1 - |(-5 : ℚ) - w.temperature| / 20) * 50)
      * (1 - min 1 (w.windSpeed / 30) * (1/2)))))

/-- Surfing score as claim C3 words it: `windScore = min(1, windSpeed/15)*50`,
`tempScore = temperature > 10 ? 50 : (temperature/10)*50`,
`rainPenalty = precipitation > 5 ? 20 : 0`, no other term. -/
def surfingScoreClaim (w : WeatherData) : ℤ :=
  jsRound (min 100 (max 0 (
    min 1 (w.windSpeed / 15) * 50
      + (if w.temperature > 10 then 50 else w.temperature / 10 * 50)
      - (if w.precipitation > 5 then 20 else 0))))

/-- Surfing score as the source actually computes it, in claim style:
`min(1, windSpeed/15)*60 + (temperature > 10 ? 40 : temperature/10*40)
− (precipitation > 5 ? 20 : 0) − (windSpeed < 5 ? 30 : 0)`, rounded and
clamped. -/
def surfingScoreAmended (w : WeatherData) : ℤ :=
  jsRound (min 100 (max 0 (
    min 1 (w.windSpeed / 15) * 60
      + (if w.temperature > 10 then 40 else w.temperature / 10 * 40)
      - (if w.precipitation > 5 then 20 else 0)
      - (if w.windSpeed < 5 then 30 else 0))))

/-- Outdoor-sightseeing score as claim C2 words it:
`tempScore = 1 − |21.5 − temperature|/20*100` (unbounded below),
`base = isGoodWeather ? 80 : 30`, `avg = (base + tempScore)/2`,
`s = max(0, avg − windPenalty)`, `windPenalty = min(30, windSpeed*2)`. -/
def outdoorScoreClaim (w : WeatherData) : ℤ :=
  jsRound (min 100 (max 0 (
    max 0 (((if isGoodWeatherCond w then 80 else 30)
              + (1 - |(43 : ℚ)/2 - w.temperature| / 20 * 100)) / 2
            - min 30 (w.windSpeed * 2)))))

/-- Outdoor-sightseeing score as the source actually computes it, in claim
style: `tempScore = max(0, 1 − |21.5 − temperature|/10*100)`,
`base = isGoodWeather ? 85 : 30`, `finalTempScore = tempScore > 0 ?
tempScore*0.8 : 0`, `s = max(0, base + finalTempScore − windPenalty)`. -/
def outdoorScoreAmended (w : WeatherData) : ℤ :=
  jsRound (min 100 (max 0 (
    max 0 ((if isGoodWeatherCond w then 85 else 30)
            + (if max 0 (1 - |(43 : ℚ)/2 - w.temperature| / 10 * 100) > 0
                then max 0 (1 - |(43 : ℚ)/2 - w.temperature| / 10 * 100) * (4/5)
                else 0)
            - min 30 (w.windSpeed * 2)))))

/-! ## Rounding and clamping lemmas -/

theorem clampScore_nonneg (n : ℤ) : 0 ≤ clampScore n :=
  le_min (by norm_num) (le_max_left 0 n)

theorem clampScore_le_hundred (n : ℤ) : clampScore n ≤ 100 :=
  min_le_left _ _

/-- Rounding then clamping to `[0,100]` over `ℤ` equals clamping to `[0,100]`
over `ℚ` then rounding: the two readings of "round and clamp" agree. -/
theorem clampScore_jsRound_eq (q : ℚ) :
    clampScore (jsRound q) = jsRound (min 100 (max 0 q)) := by
  unfold clampScore jsRound
  rcases le_total q 0 with h0 | h0
  · rw [max_eq_left h0, min_eq_right (by norm_num : (0:ℚ) ≤ 100)]
    have hfl : ⌊q + 1/2⌋ ≤ 0 := by
      have h1 : ⌊q + 1/2⌋ < 1 := Int.floor_lt.mpr (by push_cast; linarith)
      omega
    rw [max_eq_left hfl, min_eq_right (by norm_num : (0:ℤ) ≤ 100)]
    norm_num
  · rw [max_eq_right h0]
    rcases le_total q 100 with h1 | h1
    · rw [min_eq_right h1]
      have hlo : (0:ℤ) ≤ ⌊q + 1/2⌋ := Int.le_floor.mpr (by push_cast; linarith)
      have hhi : ⌊q + 1/2⌋ ≤ 100 := by
        have h2 : ⌊q + 1/2⌋ < 101 := Int.floor_lt.mpr (by push_cast; linarith)
        omega
      rw [max_eq_right hlo, min_eq_right hhi]
    · rw [min_eq_left h1]
      have hge : (100:ℤ) ≤ ⌊q + 1/2⌋ := Int.le_floor.mpr (by push_cast; linarith)
      rw [max_eq_right (by omega : (0:ℤ) ≤ ⌊q + 1/2⌋), min_eq_left hge]
      norm_num

/-- When the raw score already lies in `[0,100]`, clamping after rounding is
the identity. -/
theorem clampScore_jsRound_of_mem (q : ℚ) (h0 : 0 ≤ q) (h1 : q ≤ 100) :
    clampScore (jsRound q) = jsRound q := by
  unfold clampScore jsRound
  have hlo : (0:ℤ) ≤ ⌊q + 1/2⌋ := Int.le_floor.mpr (by push_cast; linarith)
  have hhi : ⌊q + 1/2⌋ ≤ 100 := by
    have h2 : ⌊q + 1/2⌋ < 101 := Int.floor_lt.mpr (by push_cast; linarith)
    omega
  rw [max_eq_right hlo, min_eq_right hhi]

/-- Rounding is strictly monotone across a gap of at least one. -/
theorem jsRound_lt_of_add_one_le {a b : ℚ} (h : a + 1 ≤ b) :
    jsRound a < jsRound b := by
  unfold jsRound
  have h1 : ⌊a + 1/2⌋ + 1 = ⌊a + 1/2 + (1:ℤ)⌋ := (Int.floor_add_int _ _).symm
  have h2 : ⌊a + 1/2 + (1:ℤ)⌋ ≤ ⌊b + 1/2⌋ := by
    apply Int.floor_le_floor
    push_cast
    linarith
  omega

/-! ## Claims about the individual scorers -/

/-- C1: for every `WeatherSample` with finite (rational) temperature,
windSpeed and precipitation and any integer weatherCode, each of the four
scorers returns a `score` that is an integer (`ℤ` by construction in this
embedding, mirroring `Math.round` / integer literals) lying in `[0, 100]`. -/
theorem claim_C1_scorer_score_in_range (w : WeatherData) :
    (0 ≤ (calculateSkiingScore w).score ∧ (calculateSkiingScore w).score ≤ 100) ∧
    (0 ≤ (calculateSurfingScore w).score ∧ (calculateSurfingScore w).score ≤ 100) ∧
    (0 ≤ (calculateIndoorSightseeingScore w).score ∧
      (calculateIndoorSightseeingScore w).score ≤ 100) ∧
    (0 ≤ (calculateOutdoorSightseeingScore w).score ∧
      (calculateOutdoorSightseeingScore w).score ≤ 100) := by
  refine ⟨⟨clampScore_nonneg _, clampScore_le_hundred _⟩,
         ⟨clampScore_nonneg _, clampScore_le_hundred _⟩,
         ⟨?_, ?_⟩,
         ⟨clampScore_nonneg _, clampScore_le_hundred _⟩⟩ <;>
    by_cases h : isBadWeatherCond w <;>
    simp [calculateIndoorSightseeingScore, h]

/-- C4: `calculateSkiingScore` returns exactly the claimed
round-and-clamp of `(isSnowing ? 70 + tempScore*30 : tempScore*50) *
(1 − min(1, windSpeed/30)*0.5)` with `tempScore = max(0, 1 − |−5 − t|/20)`,
and its description is the snow sentence exactly when `weatherCode` is in
`[71,77]` or equals `85`/`86`. -/
theorem claim_C4_skiing_formula (w : WeatherData) :
    (calculateSkiingScore w).score = skiingScoreClaim w ∧
    (calculateSkiingScore w).activity = "Skiing" ∧
    ((calculateSkiingScore w).description =
        "Perfect conditions for skiing with fresh snow!" ↔
      isSnowingCond w.weatherCode) ∧
    ((calculateSkiingScore w).description =
        "Skiing conditions are not ideal right now." ↔
      ¬ isSnowingCond w.weatherCode) := by
  refine ⟨?_, rfl, ?_, ?_⟩
  · simp only [calculateSkiingScore, skiingScoreClaim]
    rw [clampScore_jsRound_eq]
  · by_cases h : isSnowingCond w.weatherCode <;> simp [calculateSkiingScore, h]
  · by_cases h : isSnowingCond w.weatherCode <;> simp [calculateSkiingScore, h]

/-- C5: `calculateIndoorSightseeingScore` returns exactly `80` under the
bad-weather condition (precipitation > 2, or temperature < 0, or
temperature > 30, or weatherCode in `[51,86]`) and exactly `30` otherwise,
with the matching descriptions. -/
theorem claim_C5_indoor_formula (w : WeatherData) :
    ((calculateIndoorSightseeingScore w).score = 80 ↔ isBadWeatherCond w) ∧
    ((calculateIndoorSightseeingScore w).score = 30 ↔ ¬ isBadWeatherCond w) ∧
    (calculateIndoorSightseeingScore w).activity = "Indoor Sightseeing" ∧
    ((calculateIndoorSightseeingScore w).description =
        "Great day to explore indoor attractions!" ↔ isBadWeatherCond w) ∧
    ((calculateIndoorSightseeingScore w).description =
        "Consider outdoor activities instead." ↔ ¬ isBadWeatherCond w) := by
  by_cases h : isBadWeatherCond w <;>
    simp [calculateIndoorSightseeingScore, h]

/-- C3 counterexample: at temperature 0 °C, windSpeed 15 m/s,
precipitation 0, weatherCode 0, the source computes surfing score 60
(wind term scaled by 60), while the claimed formula (wind term scaled by
50, temperature term scaled by 50, no low-wind penalty) gives 50. -/
theorem claim_C3_counterexample :
    (calculateSurfingScore ⟨0, 0, 15, 0, ""⟩).score = 60 ∧
    surfingScoreClaim ⟨0, 0, 15, 0, ""⟩ = 50 ∧
    (calculateSurfingScore ⟨0, 0, 15, 0, ""⟩).score ≠
      surfingScoreClaim ⟨0, 0, 15, 0, ""⟩ := by
  have h1 : (calculateSurfingScore ⟨0, 0, 15, 0, ""⟩).score = 60 := by
    norm_num [calculateSurfingScore, jsRound, clampScore, min_def, max_def]
  have h2 : surfingScoreClaim ⟨0, 0, 15, 0, ""⟩ = 50 := by
    norm_num [surfingScoreClaim, jsRound, min_def, max_def]
  exact ⟨h1, h2, by rw [h1, h2]; decide⟩

/-- C3 amended: `calculateSurfingScore` rounds and clamps
`min(1, windSpeed/15)*60 + (temperature > 10 ? 40 : temperature/10*40)
− (precipitation > 5 ? 20 : 0) − (windSpeed < 5 ? 30 : 0)`, and its
description is "Good waves for surfing!" exactly when `windSpeed > 8`. -/
theorem claim_C3_amended_surfing_formula (w : WeatherData) :
    (calculateSurfingScore w).score = surfingScoreAmended w ∧
    (calculateSurfingScore w).activity = "Surfing" ∧
    ((calculateSurfingScore w).description = "Good waves for surfing!" ↔
      w.windSpeed > 8) ∧
    ((calculateSurfingScore w).description =
        "Waves might be too calm for surfing." ↔ ¬ w.windSpeed > 8) := by
  refine ⟨?_, rfl, ?_, ?_⟩
  · simp only [calculateSurfingScore, surfingScoreAmended]
    rw [clampScore_jsRound_eq]
  · by_cases h : w.windSpeed > 8 <;> simp [calculateSurfingScore, h]
  · by_cases h : w.windSpeed > 8 <;> simp [calculateSurfingScore, h]

/-- C2 counterexample: at temperature 21.5 °C, weatherCode 0, windSpeed 2,
precipitation 0 the source computes outdoor score 82 (base 85, weighted
bounded temperature term, no averaging), while the claimed formula (base
80 averaged with an unbounded temperature term) gives 37. -/
theorem claim_C2_counterexample :
    (calculateOutdoorSightseeingScore ⟨43/2, 0, 2, 0, ""⟩).score = 82 ∧
    outdoorScoreClaim ⟨43/2, 0, 2, 0, ""⟩ = 37 ∧
    (calculateOutdoorSightseeingScore ⟨43/2, 0, 2, 0, ""⟩).score ≠
      outdoorScoreClaim ⟨43/2, 0, 2, 0, ""⟩ := by
  have h1 : (calculateOutdoorSightseeingScore ⟨43/2, 0, 2, 0, ""⟩).score = 82 := by
    norm_num [calculateOutdoorSightseeingScore, jsRound, clampScore,
      isGoodWeatherCond, min_def, max_def, abs]
  have h2 : outdoorScoreClaim ⟨43/2, 0, 2, 0, ""⟩ = 37 := by
    norm_num [outdoorScoreClaim, jsRound, isGoodWeatherCond, min_def, max_def, abs]
  exact ⟨h1, h2, by rw [h1, h2]; decide⟩

/-- C2 amended: `calculateOutdoorSightseeingScore` rounds and clamps
`max(0, base + finalTempScore − windPenalty)` with `base = isGoodWeather ?
85 : 30`, `tempScore = max(0, 1 − |21.5 − t|/10*100)`, `finalTempScore =
tempScore > 0 ? tempScore*0.8 : 0` and `windPenalty = min(30,
windSpeed*2)`; `isGoodWeather` is as the claim stated it. -/
theorem claim_C2_amended_outdoor_formula (w : WeatherData) :
    (calculateOutdoorSightseeingScore w).score = outdoorScoreAmended w ∧
    (calculateOutdoorSightseeingScore w).activity = "Outdoor Sightseeing" ∧
    ((calculateOutdoorSightseeingScore w).description =
        "Perfect weather for exploring outdoors!" ↔ isGoodWeatherCond w) := by
  refine ⟨?_, rfl, ?_⟩
  · simp only [calculateOutdoorSightseeingScore, outdoorScoreAmended]
    rw [clampScore_jsRound_eq]
  · by_cases h : isGoodWeatherCond w <;>
      simp [calculateOutdoorSightseeingScore, h]

/-- C9: with snowing weather code and all other fields fixed, raising
windSpeed from 5 to 25 strictly decreases the skiing score, even after
rounding and clamping. -/
theorem claim_C9_wind_strictly_decreases_skiing
    (t p : ℚ) (c : ℤ) (ts : String) (h : isSnowingCond c) :
    (calculateSkiingScore ⟨t, c, 25, p, ts⟩).score <
      (calculateSkiingScore ⟨t, c, 5, p, ts⟩).score := by
  have hT0 : (0:ℚ) ≤ max 0 (1 - |(-5 : ℚ) - t| / 20) := le_max_left _ _
  have hT1 : max 0 (1 - |(-5 : ℚ) - t| / 20) ≤ 1 :=
    max_le (by norm_num) (by have := abs_nonneg ((-5 : ℚ) - t); linarith)
  simp only [calculateSkiingScore, if_pos h]
  rw [show min (1:ℚ) (25 / 30) = 25/30 from min_eq_right (by norm_num),
      show min (1:ℚ) (5 / 30) = 5/30 from min_eq_right (by norm_num)]
  set T := max 0 (1 - |(-5 : ℚ) - t| / 20) with hT
  have e25 : (70 + T * 30) * (1 - 25/30 * (1/2)) = 245/6 + T * (35/2) := by ring
  have e5 : (70 + T * 30) * (1 - 5/30 * (1/2)) = 385/6 + T * (55/2) := by ring
  rw [e25, e5,
      clampScore_jsRound_of_mem _ (by linarith) (by linarith),
      clampScore_jsRound_of_mem _ (by linarith) (by linarith)]
  exact jsRound_lt_of_add_one_le (by linarith)

/-- C9 witness: at temperature 0 °C, precipitation 0, snow code 71, the
score drops (from 85 to 54) when the wind rises from 5 to 25. -/
theorem claim_C9_witness :
    isSnowingCond 71 ∧
    (calculateSkiingScore ⟨0, 71, 25, 0, ""⟩).score <
      (calculateSkiingScore ⟨0, 71, 5, 0, ""⟩).score :=
  ⟨by decide, claim_C9_wind_strictly_decreases_skiing 0 0 71 "" (by decide)⟩

/-! ## Stable descending sort

`getRecommendedActivities` sorts with
`activityScores.sort((a, b) => b.score - a.score)`. ECMAScript's
`Array.prototype.sort` is required to be stable and, for this consistent
comparator, to order elements by `score` descending. Insertion sort with
insertion strictly in front of smaller-or-equal scores (the inserted
element being the earlier one in input order) realizes exactly that
specification; its output is the unique descending-stable permutation. -/

/-- Insert `a` in front of the first element whose score is `≤ a.score`.
`a` stands earlier in the input than every element of `l`. -/
def insertDesc (a : ActivityScoreDTO) : List ActivityScoreDTO → List ActivityScoreDTO
  | [] => [a]
  | b :: t => if b.score ≤ a.score then a :: b :: t else b :: insertDesc a t

/-- Stable sort by score descending (insertion sort). -/
def sortDesc : List ActivityScoreDTO → List ActivityScoreDTO
  | [] => []
  | a :: t => insertDesc a (sortDesc t)

theorem insertDesc_length (a : ActivityScoreDTO) (l : List ActivityScoreDTO) :
    (insertDesc a l).length = l.length + 1 := by
  induction l with
  | nil => rfl
  | cons b t ih =>
    unfold insertDesc
    split
    · rfl
    · simp [List.length_cons, ih]

theorem sortDesc_length (l : List ActivityScoreDTO) :
    (sortDesc l).length = l.length := by
  induction l with
  | nil => rfl
  | cons a t ih =>
    show (insertDesc a (sortDesc t)).length = t.length + 1
    rw [insertDesc_length, ih]

theorem mem_insertDesc {x a : ActivityScoreDTO} {l : List ActivityScoreDTO} :
    x ∈ insertDesc a l ↔ x = a ∨ x ∈ l := by
  induction l with
  | nil => simp [insertDesc]
  | cons b t ih =>
    unfold insertDesc
    split
    · simp [List.mem_cons]
    · simp only [List.mem_cons, ih]
      tauto

theorem pairwise_insertDesc {a : ActivityScoreDTO} {l : List ActivityScoreDTO}
    (h : l.Pairwise (fun x y => y.score ≤ x.score)) :
    (insertDesc a l).Pairwise (fun x y => y.score ≤ x.score) := by
  induction l with
  | nil => simp [insertDesc]
  | cons b t ih =>
    rcases List.pairwise_cons.mp h with ⟨hb, ht⟩
    unfold insertDesc
    split
    · rename_i hba
      refine List.pairwise_cons.mpr ⟨?_, h⟩
      intro x hx
      rcases List.mem_cons.mp hx with rfl | hxt
      · exact hba
      · exact le_trans (hb x hxt) hba
    · rename_i hba
      push_neg at hba
      refine List.pairwise_cons.mpr ⟨?_, ih ht⟩
      intro x hx
      rcases mem_insertDesc.mp hx with rfl | hxt
      · exact le_of_lt hba
      · exact hb x hxt

/-- Scores in the output of `sortDesc` are descending. -/
theorem sortDesc_pairwise (l : List ActivityScoreDTO) :
    (sortDesc l).Pairwise (fun x y => y.score ≤ x.score) := by
  induction l with
  | nil => exact List.Pairwise.nil
  | cons a t ih => exact pairwise_insertDesc ih

theorem insertDesc_filter_score (a : ActivityScoreDTO) (l : List ActivityScoreDTO)
    (s : ℤ) :
    (insertDesc a l).filter (fun x => x.score == s) =
      (a :: l).filter (fun x => x.score == s) := by
  induction l with
  | nil => rfl
  | cons b t ih =>
    unfold insertDesc
    split
    · rfl
    · rename_i hba
      push_neg at hba
      by_cases hbs : b.score = s
      · have has : a.score ≠ s := by omega
        simp [List.filter_cons, hbs, has, ih]
      · simp [List.filter_cons, hbs, ih]

/-- Stability: within each equal-score class, `sortDesc` keeps the input
order (the filtered subsequences agree). -/
theorem sortDesc_filter_score (l : List ActivityScoreDTO) (s : ℤ) :
    (sortDesc l).filter (fun x => x.score == s) =
      l.filter (fun x => x.score == s) := by
  induction l with
  | nil => rfl
  | cons a t ih =>
    show (insertDesc a (sortDesc t)).filter _ = _
    rw [insertDesc_filter_score]
    by_cases has : a.score = s
    · simp [List.filter_cons, has, ih]
    · simp [List.filter_cons, has, ih]

/-! ## OpenMeteoService (`openmeteoService.ts`)

HTTP calls are modelled as explicit parameters: the geocoding request as an
`Except String OpenMeteoSearchResponse` (error = rejected promise, message
= `error.message`), the forecast request as a function from the
`forecast_days` request parameter to an `Except String
OpenMeteoWeatherResponse`. The `try/catch` blocks that wrap errors with the
`Failed to …` prefixes are embedded as the corresponding `Except.error`
branches. -/

/-- One entry of the geocoding response's `results` array. -/
structure GeoCity where
  id : ℤ
  name : String
  country : String
  latitude : ℚ
  longitude : ℚ
deriving DecidableEq, Repr

/-- `OpenMeteoSearchResponse`: `results` is optional (`results?`). -/
structure OpenMeteoSearchResponse where
  results : Option (List GeoCity)
deriving DecidableEq, Repr

/-- `City` as returned by `searchCities` (id stringified by `${city.id}`). -/
structure City where
  id : String
  name : String
  country : String
  latitude : ℚ
  longitude : ℚ
deriving DecidableEq, Repr

/-- `current` block of the forecast response. -/
structure CurrentBlock where
  time : String
  temperature_2m : ℚ
  weather_code : ℤ
  wind_speed_10m : ℚ
  precipitation : ℚ
deriving DecidableEq, Repr

/-- `hourly` block: parallel arrays indexed together. -/
structure HourlyBlock where
  time : List String
  temperature_2m : List ℚ
  weather_code : List ℤ
  wind_speed_10m : List ℚ
  precipitation : List ℚ
deriving DecidableEq, Repr

/-- `daily` block: parallel arrays indexed together. -/
structure DailyBlock where
  time : List String
  temperature_2m_max : List ℚ
  temperature_2m_min : List ℚ
  weather_code : List ℤ
  wind_speed_10m_max : List ℚ
  precipitation_sum : List ℚ
deriving DecidableEq, Repr

/-- `OpenMeteoWeatherResponse` (metadata fields of the interface that the
code never reads are omitted from the model). -/
structure OpenMeteoWeatherResponse where
  current : CurrentBlock
  hourly : HourlyBlock
  daily : DailyBlock
deriving DecidableEq, Repr

/-- Result shape of `getWeatherForecast`. -/
structure WeatherForecastResult where
  current : WeatherData
  hourly : List WeatherData
  daily : List WeatherData
deriving DecidableEq, Repr

/-- Normalization of the `current` block into a `WeatherData` sample. -/
def mkCurrentWeather (c : CurrentBlock) : WeatherData :=
  { temperature := c.temperature_2m
    weatherCode := c.weather_code
    windSpeed := c.wind_speed_10m
    precipitation := c.precipitation
    time := c.time }

/-- `hourly.time.slice(0, 24).map((time, index) => …)`: the first 24 hourly
samples, fields read by index from the parallel arrays. A JavaScript
out-of-range read yields `undefined`; the model defaults such reads to `0`
(no claim depends on ragged responses). -/
def mkHourlyForecast (h : HourlyBlock) : List WeatherData :=
  (h.time.take 24).enum.map fun p =>
    { temperature := h.temperature_2m.getD p.1 0
      weatherCode := h.weather_code.getD p.1 0
      windSpeed := h.wind_speed_10m.getD p.1 0
      precipitation := h.precipitation.getD p.1 0
      time := p.2 }

/-- `daily.time.map((time, index) => …)`: daily temperature is the mean of
that day's max and min. -/
def mkDailyForecast (d : DailyBlock) : List WeatherData :=
  d.time.enum.map fun p =>
    { temperature := (d.temperature_2m_max.getD p.1 0 + d.temperature_2m_min.getD p.1 0) / 2
      weatherCode := d.weather_code.getD p.1 0
      windSpeed := d.wind_speed_10m_max.getD p.1 0
      precipitation := d.precipitation_sum.getD p.1 0
      time := p.2 }

/-- `searchCities` (openmeteoService.ts, lines 36–70):
`response.data.results?.map(city => ({id: `${city.id}`, …})) || []` on
success; on a rejected request, the error is rethrown as
`Failed to search cities: ${error.message}`. -/
def searchCitiesService (http : Except String OpenMeteoSearchResponse) :
    Except String (List City) :=
  match http with
  | .ok r =>
      .ok (match r.results with
           | some cs => cs.map fun c =>
               { id := toString c.id
                 name := c.name
                 country := c.country
                 latitude := c.latitude
                 longitude := c.longitude }
           | none => [])
  | .error e => .error ("Failed to search cities: " ++ e)

/-- `getWeatherForecast` (openmeteoService.ts, lines 72–142): requests
`forecast_days = Math.min(days, 16)`, normalizes the response, and wraps a
rejected request as `Failed to fetch weather forecast: ${error.message}`. -/
def getWeatherForecastService
    (fetch : ℤ → Except String OpenMeteoWeatherResponse) (days : ℤ) :
    Except String WeatherForecastResult :=
  match fetch (min days 16) with
  | .ok r =>
      .ok { current := mkCurrentWeather r.current
            hourly := mkHourlyForecast r.hourly
            daily := mkDailyForecast r.daily }
  | .error e => .error ("Failed to fetch weather forecast: " ++ e)

/-- `getRecommendedActivities` (openmeteoService.ts, lines 144–169):
fetches a 1-day forecast, scores its `current` sample with the four
scorers in the fixed order Skiing, Surfing, Indoor Sightseeing, Outdoor
Sightseeing, sorts by score descending, and wraps any error as
`Failed to generate activity recommendations: ${error.message}`. -/
def getRecommendedActivitiesService
    (fetch : ℤ → Except String OpenMeteoWeatherResponse) :
    Except String (List ActivityScoreDTO) :=
  match getWeatherForecastService fetch 1 with
  | .ok f =>
      .ok (sortDesc
        [calculateSkiingScore f.current,
         calculateSurfingScore f.current,
         calculateIndoorSightseeingScore f.current,
         calculateOutdoorSightseeingScore f.current])
  | .error e => .error ("Failed to generate activity recommendations: " ++ e)

/-! ## Resolvers (`resolvers/index.ts`)

Each `Query` resolver validates its inputs inside a `try` block, calls the
service, and rewraps any thrown error as a `GraphQLError` carrying a fixed
`extensions.code`. The thrown/validated error messages are `String`s; the
model of `GraphQLError` keeps the message and the code. Since numbers are
modelled as rationals, the `isNaN` guards of `validateCoordinates` are
vacuous. -/

/-- `GraphQLError` as the resolvers construct it: message plus
`extensions.code`. -/
structure GraphQLErrorModel where
  message : String
  code : String
deriving DecidableEq, Repr

/-- Message of the latitude validation failure. -/
def latitudeMsg : String := "Latitude must be a number between -90 and 90"

/-- Message of the longitude validation failure. -/
def longitudeMsg : String := "Longitude must be a number between -180 and 180"

/-- Message of the days validation failure. -/
def daysMsg : String := "Days parameter must be between 1 and 16"

/-- Message of the search-query validation failure. -/
def queryMsg : String := "Search query must be at least 2 characters long"

deriving instance DecidableEq for Except

/-- JavaScript `String.prototype.trim`: strip leading and trailing
whitespace. Modelled structurally on the character list so that it
evaluates by kernel reduction. -/
def jsTrim (s : String) : String :=
  ⟨(((s.data.dropWhile Char.isWhitespace).reverse.dropWhile Char.isWhitespace).reverse)⟩

/-- `validateCoordinates` (resolvers/index.ts, lines 78–85). -/
def validateCoordinatesE (lat lon : ℚ) : Except String Unit :=
  if lat < -90 ∨ lat > 90 then .error latitudeMsg
  else if lon < -180 ∨ lon > 180 then .error longitudeMsg
  else .ok ()

/-- Input checks of the `getWeatherForecast` resolver: coordinates first,
then `days < 1 || days > 16`. -/
def validateForecastArgs (lat lon : ℚ) (days : ℤ) : Except String Unit :=
  match validateCoordinatesE lat lon with
  | .error m => .error m
  | .ok _ => if days < 1 ∨ days > 16 then .error daysMsg else .ok ()

/-- Input check of the `searchCities` resolver:
`!query || query.trim().length < 2` (an empty string is falsy). -/
def validateSearchQuery (query : String) : Except String Unit :=
  if query = "" ∨ (jsTrim query).length < 2 then .error queryMsg else .ok ()

/-- `searchCities` resolver: validation and service call inside `try`; any
error becomes a `GraphQLError` with code `BAD_USER_INPUT`. -/
def searchCitiesResolver (query : String)
    (http : Except String OpenMeteoSearchResponse) :
    Except GraphQLErrorModel (List City) :=
  match (match validateSearchQuery query with
         | .error m => (.error m : Except String (List City))
         | .ok _ => searchCitiesService http) with
  | .ok v => .ok v
  | .error m => .error { message := m, code := "BAD_USER_INPUT" }

/-- `getWeatherForecast` resolver: validation and service call inside
`try`; any error becomes a `GraphQLError` with code
`INTERNAL_SERVER_ERROR`. -/
def getWeatherForecastResolver (lat lon : ℚ) (days : ℤ)
    (fetch : ℤ → Except String OpenMeteoWeatherResponse) :
    Except GraphQLErrorModel WeatherForecastResult :=
  match (match validateForecastArgs lat lon days with
         | .error m => (.error m : Except String WeatherForecastResult)
         | .ok _ => getWeatherForecastService fetch days) with
  | .ok v => .ok v
  | .error m => .error { message := m, code := "INTERNAL_SERVER_ERROR" }

/-- `getRecommendedActivities` resolver: coordinate validation and service
call inside `try`; any error becomes a `GraphQLError` with code
`INTERNAL_SERVER_ERROR`. -/
def getRecommendedActivitiesResolver (lat lon : ℚ)
    (fetch : ℤ → Except String OpenMeteoWeatherResponse) :
    Except GraphQLErrorModel (List ActivityScoreDTO) :=
  match (match validateCoordinatesE lat lon with
         | .error m => (.error m : Except String (List ActivityScoreDTO))
         | .ok _ => getRecommendedActivitiesService fetch) with
  | .ok v => .ok v
  | .error m => .error { message := m, code := "INTERNAL_SERVER_ERROR" }

/-! ## Claims about the service and resolver layer -/

/-- The four scorer outputs in the fixed evaluation order used by
`getRecommendedActivities`: Skiing, Surfing, Indoor Sightseeing, Outdoor
Sightseeing. -/
def scoreAllList (w : WeatherData) : List ActivityScoreDTO :=
  [calculateSkiingScore w,
   calculateSurfingScore w,
   calculateIndoorSightseeingScore w,
   calculateOutdoorSightseeingScore w]

/-- A concrete successful forecast response used to instantiate theorems
with hypotheses. -/
def sampleResponse : OpenMeteoWeatherResponse :=
  { current := { time := "2025-09-08T12:00:00Z", temperature_2m := -5,
                 weather_code := 71, wind_speed_10m := 5, precipitation := 2 }
    hourly := { time := [], temperature_2m := [], weather_code := [],
                wind_speed_10m := [], precipitation := [] }
    daily := { time := [], temperature_2m_max := [], temperature_2m_min := [],
               weather_code := [], wind_speed_10m_max := [], precipitation_sum := [] } }

/-- A forecast fetch that always succeeds with `sampleResponse`. -/
def sampleFetch : ℤ → Except String OpenMeteoWeatherResponse :=
  fun _ => .ok sampleResponse

/-- C6: whenever the internally requested 1-day forecast succeeds,
`getRecommendedActivities` applies the four scorers in the fixed order
Skiing, Surfing, Indoor Sightseeing, Outdoor Sightseeing to the forecast's
current sample and returns them sorted by score descending; the result has
exactly 4 entries, and within any equal-score class (`s` ranges over all
integers) the fixed evaluation order is kept (stable sort). The scoring
and sorting step itself never fails. -/
theorem claim_C6_recommended_activities
    (fetch : ℤ → Except String OpenMeteoWeatherResponse)
    (resp : OpenMeteoWeatherResponse) (s : ℤ) (h : fetch 1 = .ok resp) :
    getRecommendedActivitiesService fetch =
      .ok (sortDesc (scoreAllList (mkCurrentWeather resp.current))) ∧
    (sortDesc (scoreAllList (mkCurrentWeather resp.current))).length = 4 ∧
    (sortDesc (scoreAllList (mkCurrentWeather resp.current))).Pairwise
      (fun a b => b.score ≤ a.score) ∧
    (sortDesc (scoreAllList (mkCurrentWeather resp.current))).filter
        (fun x => x.score == s) =
      (scoreAllList (mkCurrentWeather resp.current)).filter
        (fun x => x.score == s) := by
  refine ⟨?_, ?_, sortDesc_pairwise _, sortDesc_filter_score _ s⟩
  · unfold getRecommendedActivitiesService getWeatherForecastService
    rw [show min (1:ℤ) 16 = 1 by decide, h]
    rfl
  · rw [sortDesc_length]; rfl

/-- C6 witness: the theorem instantiated at the constant fetch returning
`sampleResponse` and the equal-score class `s = 80`. -/
theorem claim_C6_witness :
    sampleFetch 1 = .ok sampleResponse ∧
    (getRecommendedActivitiesService sampleFetch =
      .ok (sortDesc (scoreAllList (mkCurrentWeather sampleResponse.current))) ∧
    (sortDesc (scoreAllList (mkCurrentWeather sampleResponse.current))).length = 4 ∧
    (sortDesc (scoreAllList (mkCurrentWeather sampleResponse.current))).Pairwise
      (fun a b => b.score ≤ a.score) ∧
    (sortDesc (scoreAllList (mkCurrentWeather sampleResponse.current))).filter
        (fun x => x.score == (80:ℤ)) =
      (scoreAllList (mkCurrentWeather sampleResponse.current)).filter
        (fun x => x.score == (80:ℤ))) :=
  ⟨rfl, claim_C6_recommended_activities sampleFetch sampleResponse 80 rfl⟩

/-- C7: the boundary validators reject exactly the out-of-range inputs with
the stated messages — latitude outside `[−90, 90]` (checked first), then
longitude outside `[−180, 180]`, then days outside `[1, 16]` for
`getWeatherForecast`; a query whose trimmed length is below 2 for
`searchCities`. The `.ok` clauses state that boundary values (−90, 90,
−180, 180, days 1 and 16, trimmed length 2) are accepted. The final clause
propagates a latitude failure through both coordinate-taking resolvers. -/
theorem claim_C7_boundary_validation (lat lon : ℚ) (days : ℤ) (q : String)
    (fetchW : ℤ → Except String OpenMeteoWeatherResponse) :
    (validateCoordinatesE lat lon = .error latitudeMsg ↔ lat < -90 ∨ lat > 90) ∧
    (validateCoordinatesE lat lon = .error longitudeMsg ↔
      (-90 ≤ lat ∧ lat ≤ 90) ∧ (lon < -180 ∨ lon > 180)) ∧
    (validateCoordinatesE lat lon = .ok () ↔
      -90 ≤ lat ∧ lat ≤ 90 ∧ -180 ≤ lon ∧ lon ≤ 180) ∧
    (validateForecastArgs lat lon days = .error daysMsg ↔
      (-90 ≤ lat ∧ lat ≤ 90 ∧ -180 ≤ lon ∧ lon ≤ 180) ∧ (days < 1 ∨ days > 16)) ∧
    (validateForecastArgs lat lon days = .ok () ↔
      -90 ≤ lat ∧ lat ≤ 90 ∧ -180 ≤ lon ∧ lon ≤ 180 ∧ 1 ≤ days ∧ days ≤ 16) ∧
    (validateSearchQuery q = .error queryMsg ↔ (jsTrim q).length < 2) ∧
    (validateSearchQuery q = .ok () ↔ 2 ≤ (jsTrim q).length) ∧
    ((lat < -90 ∨ lat > 90) →
      getWeatherForecastResolver lat lon days fetchW =
        .error ⟨latitudeMsg, "INTERNAL_SERVER_ERROR"⟩ ∧
      getRecommendedActivitiesResolver lat lon fetchW =
        .error ⟨latitudeMsg, "INTERNAL_SERVER_ERROR"⟩) := by
  refine ⟨?_, ?_, ?_, ?_, ?_, ?_, ?_, ?_⟩
  · simp only [validateCoordinatesE]
    by_cases h1 : lat < -90 ∨ lat > 90
    · rw [if_pos h1]
      exact ⟨fun _ => h1, fun _ => rfl⟩
    · rw [if_neg h1]
      by_cases h2 : lon < -180 ∨ lon > 180
      · rw [if_pos h2]
        exact ⟨fun hc => absurd (Except.error.inj hc)
          (by simp [latitudeMsg, longitudeMsg]), fun hr => absurd hr h1⟩
      · rw [if_neg h2]
        exact ⟨fun hc => absurd hc (by simp), fun hr => absurd hr h1⟩
  · simp only [validateCoordinatesE]
    by_cases h1 : lat < -90 ∨ lat > 90
    · rw [if_pos h1]
      refine ⟨fun hc => absurd (Except.error.inj hc)
        (by simp [latitudeMsg, longitudeMsg]), ?_⟩
      rintro ⟨⟨ha, hb⟩, _⟩
      rcases h1 with h1 | h1 <;> linarith
    · rw [if_neg h1]
      push_neg at h1
      by_cases h2 : lon < -180 ∨ lon > 180
      · rw [if_pos h2]
        exact ⟨fun _ => ⟨⟨h1.1, h1.2⟩, h2⟩, fun _ => rfl⟩
      · rw [if_neg h2]
        refine ⟨fun hc => absurd hc (by simp), ?_⟩
        rintro ⟨_, hcon⟩
        exact absurd hcon h2
  · simp only [validateCoordinatesE]
    by_cases h1 : lat < -90 ∨ lat > 90
    · rw [if_pos h1]
      refine ⟨fun hc => absurd hc (by simp), ?_⟩
      rintro ⟨ha, hb, _, _⟩
      rcases h1 with h1 | h1 <;> linarith
    · rw [if_neg h1]
      push_neg at h1
      by_cases h2 : lon < -180 ∨ lon > 180
      · rw [if_pos h2]
        refine ⟨fun hc => absurd hc (by simp), ?_⟩
        rintro ⟨_, _, hc, hd⟩
        rcases h2 with h2 | h2 <;> linarith
      · rw [if_neg h2]
        push_neg at h2
        exact ⟨fun _ => ⟨h1.1, h1.2, h2.1, h2.2⟩, fun _ => rfl⟩
  · by_cases h1 : lat < -90 ∨ lat > 90
    · have hvc : validateCoordinatesE lat lon = .error latitudeMsg := by
        simp only [validateCoordinatesE]
        rw [if_pos h1]
      simp only [validateForecastArgs, hvc]
      refine ⟨fun hc => absurd (Except.error.inj hc)
        (by simp [latitudeMsg, daysMsg]), ?_⟩
      rintro ⟨⟨ha, hb, _, _⟩, _⟩
      rcases h1 with h1 | h1 <;> linarith
    · by_cases h2 : lon < -180 ∨ lon > 180
      · have hvc : validateCoordinatesE lat lon = .error longitudeMsg := by
          simp only [validateCoordinatesE]
          rw [if_neg h1, if_pos h2]
        simp only [validateForecastArgs, hvc]
        refine ⟨fun hc => absurd (Except.error.inj hc)
          (by simp [longitudeMsg, daysMsg]), ?_⟩
        rintro ⟨⟨_, _, hc, hd⟩, _⟩
        rcases h2 with h2 | h2 <;> linarith
      · have hvc : validateCoordinatesE lat lon = .ok () := by
          simp only [validateCoordinatesE]
          rw [if_neg h1, if_neg h2]
        simp only [validateForecastArgs, hvc]
        push_neg at h1 h2
        by_cases h3 : days < 1 ∨ days > 16
        · rw [if_pos h3]
          exact ⟨fun _ => ⟨⟨h1.1, h1.2, h2.1, h2.2⟩, h3⟩, fun _ => rfl⟩
        · rw [if_neg h3]
          refine ⟨fun hc => absurd hc (by simp), ?_⟩
          rintro ⟨_, hcon⟩
          exact absurd hcon h3
  · by_cases h1 : lat < -90 ∨ lat > 90
    · have hvc : validateCoordinatesE lat lon = .error latitudeMsg := by
        simp only [validateCoordinatesE]
        rw [if_pos h1]
      simp only [validateForecastArgs, hvc]
      refine ⟨fun hc => absurd hc (by simp), ?_⟩
      rintro ⟨ha, hb, _⟩
      rcases h1 with h1 | h1 <;> linarith
    · by_cases h2 : lon < -180 ∨ lon > 180
      · have hvc : validateCoordinatesE lat lon = .error longitudeMsg := by
          simp only [validateCoordinatesE]
          rw [if_neg h1, if_pos h2]
        simp only [validateForecastArgs, hvc]
        refine ⟨fun hc => absurd hc (by simp), ?_⟩
        rintro ⟨_, _, hc, hd, _⟩
        rcases h2 with h2 | h2 <;> linarith
      · have hvc : validateCoordinatesE lat lon = .ok () := by
          simp only [validateCoordinatesE]
          rw [if_neg h1, if_neg h2]
        simp only [validateForecastArgs, hvc]
        push_neg at h1 h2
        by_cases h3 : days < 1 ∨ days > 16
        · rw [if_pos h3]
          refine ⟨fun hc => absurd hc (by simp), ?_⟩
          rintro ⟨_, _, _, _, he, hf⟩
          rcases h3 with h3 | h3 <;> omega
        · rw [if_neg h3]
          push_neg at h3
          exact ⟨fun _ => ⟨h1.1, h1.2, h2.1, h2.2, h3.1, h3.2⟩, fun _ => rfl⟩
  · simp only [validateSearchQuery]
    by_cases hq0 : q = ""
    · subst hq0
      rw [if_pos (Or.inl rfl)]
      exact ⟨fun _ => by decide, fun _ => rfl⟩
    · by_cases hlen : (jsTrim q).length < 2
      · rw [if_pos (Or.inr hlen)]
        exact ⟨fun _ => hlen, fun _ => rfl⟩
      · rw [if_neg (by tauto)]
        exact ⟨fun hc => absurd hc (by simp), fun hl => absurd hl hlen⟩
  · simp only [validateSearchQuery]
    by_cases hq0 : q = ""
    · subst hq0
      rw [if_pos (Or.inl rfl)]
      exact ⟨fun hc => absurd hc (by simp), fun hc2 => absurd hc2 (by decide)⟩
    · by_cases hlen : (jsTrim q).length < 2
      · rw [if_pos (Or.inr hlen)]
        exact ⟨fun hc => absurd hc (by simp), fun h2le => absurd h2le (by omega)⟩
      · rw [if_neg (by tauto)]
        exact ⟨fun _ => by omega, fun _ => rfl⟩
  · intro h
    have hv2 : validateCoordinatesE lat lon = .error latitudeMsg := by
      simp only [validateCoordinatesE]
      rw [if_pos h]
    have hv : validateForecastArgs lat lon days = .error latitudeMsg := by
      simp only [validateForecastArgs, hv2]
    constructor
    · simp only [getWeatherForecastResolver, hv]
    · simp only [getRecommendedActivitiesResolver, hv2]

/-- C7 witness: at latitude 91 both coordinate-taking resolvers fail with
the latitude message. -/
theorem claim_C7_witness :
    ((91:ℚ) < -90 ∨ (91:ℚ) > 90) ∧
    (getWeatherForecastResolver 91 0 7 sampleFetch =
        .error ⟨latitudeMsg, "INTERNAL_SERVER_ERROR"⟩ ∧
      getRecommendedActivitiesResolver 91 0 sampleFetch =
        .error ⟨latitudeMsg, "INTERNAL_SERVER_ERROR"⟩) :=
  ⟨by norm_num,
   (claim_C7_boundary_validation 91 0 7 "ab" sampleFetch).2.2.2.2.2.2.2 (by norm_num)⟩

/-- C8 counterexample: within `getWeatherForecast`, a validation failure
(latitude 91) and an upstream failure (rejected fetch) are both reported
under the same condition code `INTERNAL_SERVER_ERROR`, and in
`searchCities` an upstream failure is reported under the input-validation
code `BAD_USER_INPUT`; so validation and upstream failures are not
distinguished by condition, contradicting the claim. -/
theorem claim_C8_counterexample :
    getWeatherForecastResolver 91 0 7 (fun _ => .error "boom") =
      .error ⟨latitudeMsg, "INTERNAL_SERVER_ERROR"⟩ ∧
    getWeatherForecastResolver 0 0 7 (fun _ => .error "boom") =
      .error ⟨"Failed to fetch weather forecast: boom", "INTERNAL_SERVER_ERROR"⟩ ∧
    searchCitiesResolver "London" (.error "boom") =
      .error ⟨"Failed to search cities: boom", "BAD_USER_INPUT"⟩ :=
  ⟨rfl, rfl, rfl⟩

/-- C8 amended: every failure of an operation carries that operation's
single fixed error code — `BAD_USER_INPUT` for `searchCities`,
`INTERNAL_SERVER_ERROR` for `getWeatherForecast` and
`getRecommendedActivities` — for validation and upstream failures alike;
the message is either a validation message verbatim or the upstream error
wrapped with the operation's `Failed to …: ` prefix (doubled through the
internal forecast call for `getRecommendedActivities`). -/
theorem claim_C8_amended_fixed_codes
    (q : String) (http : Except String OpenMeteoSearchResponse)
    (lat lon : ℚ) (days : ℤ)
    (fetchW : ℤ → Except String OpenMeteoWeatherResponse)
    (e₁ e₂ e₃ : GraphQLErrorModel) :
    (searchCitiesResolver q http = .error e₁ →
      e₁.code = "BAD_USER_INPUT" ∧
      (e₁.message = queryMsg ∨
        ∃ u, http = .error u ∧ e₁.message = "Failed to search cities: " ++ u)) ∧
    (getWeatherForecastResolver lat lon days fetchW = .error e₂ →
      e₂.code = "INTERNAL_SERVER_ERROR" ∧
      (e₂.message = latitudeMsg ∨ e₂.message = longitudeMsg ∨ e₂.message = daysMsg ∨
        ∃ u, fetchW (min days 16) = .error u ∧
          e₂.message = "Failed to fetch weather forecast: " ++ u)) ∧
    (getRecommendedActivitiesResolver lat lon fetchW = .error e₃ →
      e₃.code = "INTERNAL_SERVER_ERROR" ∧
      (e₃.message = latitudeMsg ∨ e₃.message = longitudeMsg ∨
        ∃ u, fetchW (min 1 16) = .error u ∧
          e₃.message = "Failed to generate activity recommendations: " ++
            ("Failed to fetch weather forecast: " ++ u))) := by
  refine ⟨?_, ?_, ?_⟩
  · intro h
    unfold searchCitiesResolver validateSearchQuery at h
    split_ifs at h with hqv
    · have h2 : (Except.error ⟨queryMsg, "BAD_USER_INPUT"⟩ :
          Except GraphQLErrorModel (List City)) = .error e₁ := h
      cases h2
      exact ⟨rfl, Or.inl rfl⟩
    · cases http with
      | ok r => simp [searchCitiesService] at h
      | error u =>
        have h2 : (Except.error ⟨"Failed to search cities: " ++ u, "BAD_USER_INPUT"⟩ :
            Except GraphQLErrorModel (List City)) = .error e₁ := h
        cases h2
        exact ⟨rfl, Or.inr ⟨u, rfl, rfl⟩⟩
  · intro h
    by_cases h1 : lat < -90 ∨ lat > 90
    · have hva : validateForecastArgs lat lon days = .error latitudeMsg := by
        have hvc : validateCoordinatesE lat lon = .error latitudeMsg := by
          simp only [validateCoordinatesE]
          rw [if_pos h1]
        simp only [validateForecastArgs, hvc]
      simp only [getWeatherForecastResolver, hva] at h
      have h2e : (Except.error ⟨latitudeMsg, "INTERNAL_SERVER_ERROR"⟩ :
          Except GraphQLErrorModel WeatherForecastResult) = .error e₂ := h
      cases h2e
      exact ⟨rfl, Or.inl rfl⟩
    · by_cases h2 : lon < -180 ∨ lon > 180
      · have hva : validateForecastArgs lat lon days = .error longitudeMsg := by
          have hvc : validateCoordinatesE lat lon = .error longitudeMsg := by
            simp only [validateCoordinatesE]
            rw [if_neg h1, if_pos h2]
          simp only [validateForecastArgs, hvc]
        simp only [getWeatherForecastResolver, hva] at h
        have h2e : (Except.error ⟨longitudeMsg, "INTERNAL_SERVER_ERROR"⟩ :
            Except GraphQLErrorModel WeatherForecastResult) = .error e₂ := h
        cases h2e
        exact ⟨rfl, Or.inr (Or.inl rfl)⟩
      · have hvc : validateCoordinatesE lat lon = .ok () := by
          simp only [validateCoordinatesE]
          rw [if_neg h1, if_neg h2]
        by_cases h3 : days < 1 ∨ days > 16
        · have hva : validateForecastArgs lat lon days = .error daysMsg := by
            simp only [validateForecastArgs, hvc]
            rw [if_pos h3]
          simp only [getWeatherForecastResolver, hva] at h
          have h2e : (Except.error ⟨daysMsg, "INTERNAL_SERVER_ERROR"⟩ :
              Except GraphQLErrorModel WeatherForecastResult) = .error e₂ := h
          cases h2e
          exact ⟨rfl, Or.inr (Or.inr (Or.inl rfl))⟩
        · have hva : validateForecastArgs lat lon days = .ok () := by
            simp only [validateForecastArgs, hvc]
            rw [if_neg h3]
          simp only [getWeatherForecastResolver, hva, getWeatherForecastService] at h
          cases hf : fetchW (min days 16) with
          | ok r =>
            rw [hf] at h
            simp at h
          | error u =>
            rw [hf] at h
            have h2e : (Except.error ⟨"Failed to fetch weather forecast: " ++ u,
                "INTERNAL_SERVER_ERROR"⟩ :
                Except GraphQLErrorModel WeatherForecastResult) = .error e₂ := h
            cases h2e
            exact ⟨rfl, Or.inr (Or.inr (Or.inr ⟨u, rfl, rfl⟩))⟩
  · intro h
    by_cases h1 : lat < -90 ∨ lat > 90
    · have hvc : validateCoordinatesE lat lon = .error latitudeMsg := by
        simp only [validateCoordinatesE]
        rw [if_pos h1]
      simp only [getRecommendedActivitiesResolver, hvc] at h
      have h2e : (Except.error ⟨latitudeMsg, "INTERNAL_SERVER_ERROR"⟩ :
          Except GraphQLErrorModel (List ActivityScoreDTO)) = .error e₃ := h
      cases h2e
      exact ⟨rfl, Or.inl rfl⟩
    · by_cases h2 : lon < -180 ∨ lon > 180
      · have hvc : validateCoordinatesE lat lon = .error longitudeMsg := by
          simp only [validateCoordinatesE]
          rw [if_neg h1, if_pos h2]
        simp only [getRecommendedActivitiesResolver, hvc] at h
        have h2e : (Except.error ⟨longitudeMsg, "INTERNAL_SERVER_ERROR"⟩ :
            Except GraphQLErrorModel (List ActivityScoreDTO)) = .error e₃ := h
        cases h2e
        exact ⟨rfl, Or.inr (Or.inl rfl)⟩
      · have hvc : validateCoordinatesE lat lon = .ok () := by
          simp only [validateCoordinatesE]
          rw [if_neg h1, if_neg h2]
        simp only [getRecommendedActivitiesResolver, hvc,
          getRecommendedActivitiesService, getWeatherForecastService] at h
        cases hf : fetchW (min 1 16) with
        | ok r =>
          rw [hf] at h
          simp at h
        | error u =>
          rw [hf] at h
          have h2e : (Except.error ⟨"Failed to generate activity recommendations: " ++
              ("Failed to fetch weather forecast: " ++ u), "INTERNAL_SERVER_ERROR"⟩ :
              Except GraphQLErrorModel (List ActivityScoreDTO)) = .error e₃ := h
          cases h2e
          exact ⟨rfl, Or.inr (Or.inr ⟨u, rfl, rfl⟩)⟩

/-- C8 amended witness: the three conjuncts instantiated at concrete
failing inputs (rejected upstream for `searchCities`, out-of-range latitude
for `getWeatherForecast`, rejected upstream for
`getRecommendedActivities`). -/
theorem claim_C8_amended_witness :
    ((⟨"Failed to search cities: boom", "BAD_USER_INPUT"⟩ : GraphQLErrorModel).code =
        "BAD_USER_INPUT" ∧
      ((⟨"Failed to search cities: boom", "BAD_USER_INPUT"⟩ : GraphQLErrorModel).message =
          queryMsg ∨
        ∃ u, (Except.error "boom" : Except String OpenMeteoSearchResponse) = .error u ∧
          (⟨"Failed to search cities: boom", "BAD_USER_INPUT"⟩ :
            GraphQLErrorModel).message = "Failed to search cities: " ++ u)) ∧
    ((⟨latitudeMsg, "INTERNAL_SERVER_ERROR"⟩ : GraphQLErrorModel).code =
        "INTERNAL_SERVER_ERROR" ∧
      ((⟨latitudeMsg, "INTERNAL_SERVER_ERROR"⟩ : GraphQLErrorModel).message = latitudeMsg ∨
        (⟨latitudeMsg, "INTERNAL_SERVER_ERROR"⟩ : GraphQLErrorModel).message = longitudeMsg ∨
        (⟨latitudeMsg, "INTERNAL_SERVER_ERROR"⟩ : GraphQLErrorModel).message = daysMsg ∨
        ∃ u, (fun _ => (Except.error "boom" : Except String OpenMeteoWeatherResponse))
            (min (7:ℤ) 16) = .error u ∧
          (⟨latitudeMsg, "INTERNAL_SERVER_ERROR"⟩ : GraphQLErrorModel).message =
            "Failed to fetch weather forecast: " ++ u)) ∧
    ((⟨"Failed to generate activity recommendations: Failed to fetch weather forecast: boom",
        "INTERNAL_SERVER_ERROR"⟩ : GraphQLErrorModel).code = "INTERNAL_SERVER_ERROR" ∧
      ((⟨"Failed to generate activity recommendations: Failed to fetch weather forecast: boom",
          "INTERNAL_SERVER_ERROR"⟩ : GraphQLErrorModel).message = latitudeMsg ∨
        (⟨"Failed to generate activity recommendations: Failed to fetch weather forecast: boom",
          "INTERNAL_SERVER_ERROR"⟩ : GraphQLErrorModel).message = longitudeMsg ∨
        ∃ u, (fun _ => (Except.error "boom" : Except String OpenMeteoWeatherResponse))
            (min (1:ℤ) 16) = .error u ∧
          (⟨"Failed to generate activity recommendations: Failed to fetch weather forecast: boom",
            "INTERNAL_SERVER_ERROR"⟩ : GraphQLErrorModel).message =
            "Failed to generate activity recommendations: " ++
              ("Failed to fetch weather forecast: " ++ u))) :=
  ⟨(claim_C8_amended_fixed_codes "London" (.error "boom") 91 0 7
      (fun _ => .error "boom") ⟨"Failed to search cities: boom", "BAD_USER_INPUT"⟩
      ⟨latitudeMsg, "INTERNAL_SERVER_ERROR"⟩
      ⟨"Failed to generate activity recommendations: Failed to fetch weather forecast: boom",
        "INTERNAL_SERVER_ERROR"⟩).1 rfl,
   (claim_C8_amended_fixed_codes "London" (.error "boom") 91 0 7
      (fun _ => .error "boom") ⟨"Failed to search cities: boom", "BAD_USER_INPUT"⟩
      ⟨latitudeMsg, "INTERNAL_SERVER_ERROR"⟩
      ⟨"Failed to generate activity recommendations: Failed to fetch weather forecast: boom",
        "INTERNAL_SERVER_ERROR"⟩).2.1 rfl,
   (claim_C8_amended_fixed_codes "London" (.error "boom") 0 0 7
      (fun _ => .error "boom") ⟨"Failed to search cities: boom", "BAD_USER_INPUT"⟩
      ⟨latitudeMsg, "INTERNAL_SERVER_ERROR"⟩
      ⟨"Failed to generate activity recommendations: Failed to fetch weather forecast: boom",
        "INTERNAL_SERVER_ERROR"⟩).2.2 rfl⟩

/-- C10: when the geocoding upstream responds successfully with no
`results` field, or with an empty `results` array, `searchCities` returns
an empty city list rather than failing — both at the service layer and
through the resolver. -/
theorem claim_C10_missing_results_empty :
    searchCitiesService (.ok ⟨none⟩) = .ok [] ∧
    searchCitiesService (.ok ⟨some []⟩) = .ok [] ∧
    searchCitiesResolver "London" (.ok ⟨none⟩) = .ok [] ∧
    searchCitiesResolver "London" (.ok ⟨some []⟩) = .ok [] :=
  ⟨rfl, rfl, rfl, rfl⟩

end GraphqlApi
